import Mathlib

/-!
# Verification of the keyboard firmware scan pipeline

Shallow embedding of `scanMatrix` and its state from
`src/firmware/left/left.ino` (Raspberry Pi Pico keyboard firmware,
4 layers, sticky keys).  Per-cell debouncing, the layer-calculation
phase, the sticky-key state machine and the edge-triggered action
phase are translated directly from the source; theorems below settle
the specification claims about them.

Machine integers: `millis()` timestamps and their differences are
32-bit `unsigned long` values on the target, so elapsed time is
computed modulo 2^32 (`elapsedMod`).  Keycodes are `uint8_t` values,
embedded as `Nat`.
-/

namespace PicoKbd

/-- Keycode constants from the source file.  `0x00` is the blank key. -/
def BLANK : Nat := 0x00

/-- Internal layer-1 toggle code (`#define KC_L1 0xF1`). -/
def KC_L1 : Nat := 0xF1

/-- Internal function-layer toggle code (`#define KEY_FUNC 0xF2`). -/
def KEY_FUNC : Nat := 0xF2

/-- Sticky-mode toggle code (`#define STICKY 0xF3`). -/
def STICKY : Nat := 0xF3

/-- Modifier codes; the fallback values in the source (`0x80`..`0x82`)
agree with the Arduino `Keyboard.h` definitions. -/
def KEY_LEFT_CTRL : Nat := 0x80

def KEY_LEFT_SHIFT : Nat := 0x81

def KEY_LEFT_ALT : Nat := 0x82

/-- `const unsigned long DEBOUNCE_DELAY = 5;` -/
def DEBOUNCE_DELAY : Nat := 5

/-- 2^32, the modulus of `unsigned long` arithmetic on the 32-bit target. -/
def ULMOD : Nat := 4294967296

/-- `now - last` as the C code computes it for `unsigned long` values:
wrapping subtraction modulo 2^32.  For monotone timestamps
(`last ≤ now`, difference below 2^32) this equals `now - last`. -/
def elapsedMod (now last : Nat) : Nat := (now + ULMOD - last) % ULMOD

/-- Debounce state of one matrix cell: `keyState[r][c]` (stable),
`lastRawState[r][c]` and `lastDebounceTime[r][c]` in the source. -/
structure DCell where
  stable : Bool
  rawLast : Bool
  changedAt : Nat
  deriving DecidableEq, Repr

/-- One debounce update for one cell, translated from the inner scan
loop (left.ino lines 177-186):

    if (reading != lastRawState[row][col]) lastDebounceTime[row][col] = now;
    if ((now - lastDebounceTime[row][col]) > DEBOUNCE_DELAY)
      if (reading != keyState[row][col]) keyState[row][col] = reading;
    lastRawState[row][col] = reading;
-/
def debounceStep (c : DCell) (now : Nat) (reading : Bool) : DCell :=
  let changedAt := if reading ≠ c.rawLast then now else c.changedAt
  let stable :=
    if elapsedMod now changedAt > DEBOUNCE_DELAY then
      if reading ≠ c.stable then reading else c.stable
    else c.stable
  { stable := stable, rawLast := reading, changedAt := changedAt }

/-- Feed one cell a sequence of `(millis, reading)` samples. -/
def runDebounce (c : DCell) (samples : List (Nat × Bool)) : DCell :=
  samples.foldl (fun st p => debounceStep st p.1 p.2) c

/-- The sticky-logic globals of the source:
`stickyModeEnabled, stickyL1, stickyFunc, stickyShift, stickyCtrl, stickyAlt`. -/
structure Sticky where
  modeEnabled : Bool
  l1 : Bool
  func : Bool
  shift : Bool
  ctrl : Bool
  alt : Bool
  deriving DecidableEq, Repr, Fintype

/-- The startup state: everything false. -/
def stickyInit : Sticky := ⟨false, false, false, false, false, false⟩

/-- Calls made to the HID output sink (`Keyboard.press`,
`Keyboard.release`, `Keyboard.releaseAll`). -/
inductive Event where
  | press (code : Nat)
  | release (code : Nat)
  | releaseAll
  deriving DecidableEq, Repr

/-- The keymap table of left.ino (4 layers x 4 rows x 7 columns), with
library key constants at their Arduino `Keyboard.h` values and printable
characters at their ASCII codes. -/
def keymaps : List (List (List Nat)) :=
  [ -- layer 0 (base)
    [ [113, 119, 101, 114, 116, 0xB2, 0],
      [97, 115, 100, 102, 103, 63, 33],
      [0x82, 122, 120, 99, 118, 0xF1, 0],
      [0, 0, 0, 0x81, 0x80, 32, 0] ],
    -- layer 1 (sym)
    [ [64, 58, 36, 47, 45, 0xB2, 0],
      [126, 60, 37, 42, 43, 39, 0xF2],
      [59, 62, 38, 94, 61, 0xF1, 0],
      [0, 0, 0, 0x81, 0x80, 32, 0] ],
    -- layer 2 (fn)
    [ [0xC2, 0xC3, 0xC4, 0xC5, 0xC6, 0xD4, 0],
      [0xC7, 0xC8, 0xC9, 0xCA, 0xCB, 0, 0xF2],
      [0xF3, 0x83, 0, 0xCC, 0xCD, 0xF1, 0],
      [0, 0, 0, 0x81, 0x80, 0, 0] ],
    -- layer 3 (shifted layer 1)
    [ [0, 0, 0, 92, 95, 0, 0],
      [0, 0, 124, 0xDA, 96, 34, 0],
      [0, 0, 0xD8, 0xD9, 0xD7, 0, 0],
      [0, 0, 0, 0, 0, 0, 32] ] ]

/-- `keymaps[layer][row][col]`. -/
def keymapAt (layer row col : Nat) : Nat :=
  ((keymaps.getD layer []).getD row []).getD col 0

/-- The layer-calculation phase (left.ino lines 205-221).  Takes the
stable matrix (`keyState`, as a row/column predicate) and the sticky
state; returns the computed `currentLayer` and the (possibly updated)
sticky state — the only write in this phase is the level-triggered
`if (keyState[3][3] && stickyModeEnabled) stickyCtrl = true;`. -/
def layerPhase (ks : Nat → Nat → Bool) (s : Sticky) : Nat × Sticky :=
  let activeL1 := s.l1 || ks 2 5
  let activeFunc := s.func || ks 1 6
  let activeShift := s.shift || ks 3 2
  let s' := if ks 3 3 && s.modeEnabled then { s with ctrl := true } else s
  let layer :=
    if activeL1 then
      let a := 1
      let b := if activeShift then 3 else a
      if activeFunc then 2 else b
    else 0
  (layer, s')

/-- The per-cell key handler of the action phase (left.ino lines
240-296): given the resolved keycode and the new stable value
(`pressed`), update the sticky state and emit output-sink calls, in
order.  Each branch mirrors one `if (code == ...)` block. -/
def handleKey (code : Nat) (pressed : Bool) (s : Sticky) : Sticky × List Event :=
  if code = STICKY then
    if pressed then
      let evs := if s.modeEnabled then [Event.releaseAll] else []
      let m := !s.modeEnabled
      let s1 := { s with modeEnabled := m }
      let s2 :=
        if !m then
          { s1 with l1 := false, func := false, shift := false,
                    ctrl := false, alt := false }
        else s1
      (s2, evs)
    else (s, [])
  else if code = KC_L1 then
    (if s.modeEnabled && pressed then { s with l1 := !s.l1 } else s, [])
  else if code = KEY_FUNC then
    (if s.modeEnabled && pressed then { s with func := !s.func } else s, [])
  else if code = KEY_LEFT_SHIFT ∨ code = KEY_LEFT_CTRL ∨ code = KEY_LEFT_ALT then
    if s.modeEnabled then
      if pressed then
        let s1 := if code = KEY_LEFT_SHIFT then { s with shift := !s.shift } else s
        let s2 := if code = KEY_LEFT_CTRL then { s1 with ctrl := !s1.ctrl } else s1
        let s3 := if code = KEY_LEFT_ALT then { s2 with alt := !s2.alt } else s2
        (s3, [])
      else (s, [])
    else
      (s, [if pressed then Event.press code else Event.release code])
  else if code ≠ BLANK then
    if pressed then
      (s, (if s.shift then [Event.press KEY_LEFT_SHIFT] else []) ++
          (if s.ctrl then [Event.press KEY_LEFT_CTRL] else []) ++
          (if s.alt then [Event.press KEY_LEFT_ALT] else []) ++
          [Event.press code])
    else (s, [Event.release code])
  else (s, [])

/-- One cell of the edge-triggered action phase (left.ino lines
224-236): skip when `stable == dispatched`
(`if (pressed == prevPressed) continue;`), otherwise record
`prevInputState[r][c] = pressed` and run the key handler.  Returns the
new dispatched value, the new sticky state and the emitted events. -/
def cellDispatch (s : Sticky) (code : Nat) (stable dispatched : Bool) :
    Bool × Sticky × List Event :=
  if stable = dispatched then (dispatched, s, [])
  else
    let p := handleKey code stable s
    (stable, p.1, p.2)

/-- The sticky-toggle state transition: the state part of a press edge
on a `STICKY`-coded cell. -/
def stickyToggle (s : Sticky) : Sticky := (handleKey STICKY true s).1

/-- Modifier presses injected before a standard key press (left.ino
lines 287-290), in source order: shift, ctrl, alt. -/
def stickyInjects (s : Sticky) : List Event :=
  (if s.shift then [Event.press KEY_LEFT_SHIFT] else []) ++
  (if s.ctrl then [Event.press KEY_LEFT_CTRL] else []) ++
  (if s.alt then [Event.press KEY_LEFT_ALT] else [])

/-- Stable matrix with exactly the layer-1 toggle cell (2,5) and the
shift-modifier cell (3,3) pressed. -/
def ksL1Shift : Nat → Nat → Bool :=
  fun r c => (r == 2 && c == 5) || (r == 3 && c == 3)

/- ### Helper lemmas -/

theorem runDebounce_cons (c : DCell) (p : Nat × Bool) (l : List (Nat × Bool)) :
    runDebounce c (p :: l) = runDebounce (debounceStep c p.1 p.2) l := rfl

theorem runDebounce_append (c : DCell) (l1 l2 : List (Nat × Bool)) :
    runDebounce c (l1 ++ l2) = runDebounce (runDebounce c l1) l2 := by
  simp [runDebounce, List.foldl_append]

theorem elapsedMod_self (n : Nat) : elapsedMod n n = 0 := by
  unfold elapsedMod ULMOD; omega

theorem elapsedMod_of_le (t0 t : Nat) (h1 : t0 ≤ t) (h2 : t - t0 ≤ DEBOUNCE_DELAY) :
    elapsedMod t t0 = t - t0 := by
  unfold DEBOUNCE_DELAY at h2
  unfold elapsedMod ULMOD
  omega

/-- A raw transition never commits on the spot: the step that changes
`rawLast` resets the timer, and an elapsed time of zero is below the
window. -/
theorem debounce_flip_start (b : Bool) (a t0 : Nat) :
    debounceStep ⟨b, b, a⟩ t0 (!b) = ⟨b, !b, t0⟩ := by
  have h0 : elapsedMod t0 t0 = 0 := elapsedMod_self t0
  cases b <;> simp [debounceStep, h0, DEBOUNCE_DELAY]

/-- While the bounced value persists inside the debounce window, the
cell state is a fixed point. -/
theorem debounce_hold_bounce (b : Bool) (t0 t : Nat)
    (h1 : t0 ≤ t) (h2 : t ≤ t0 + DEBOUNCE_DELAY) :
    debounceStep ⟨b, !b, t0⟩ t (!b) = ⟨b, !b, t0⟩ := by
  have he : elapsedMod t t0 = t - t0 := elapsedMod_of_le t0 t h1 (by omega)
  have hng : ¬ (t - t0 > DEBOUNCE_DELAY) := by omega
  cases b <;> simp [debounceStep, he, hng]

theorem runDebounce_bounce_phase (b : Bool) (t0 : Nat) :
    ∀ ts : List Nat, (∀ t ∈ ts, t0 ≤ t ∧ t ≤ t0 + DEBOUNCE_DELAY) →
      runDebounce ⟨b, !b, t0⟩ (ts.map fun t => (t, !b)) = ⟨b, !b, t0⟩ := by
  intro ts
  induction ts with
  | nil => intro _; rfl
  | cons t ts ih =>
    intro h
    have h1 := h t (List.mem_cons_self t ts)
    simp only [List.map_cons]
    rw [runDebounce_cons]
    simp only []
    rw [debounce_hold_bounce b t0 t h1.1 h1.2]
    exact ih fun x hx => h x (List.mem_cons_of_mem _ hx)

/-- Samples that agree with the committed stable value never change it. -/
theorem runDebounce_stable_same (b : Bool) :
    ∀ l : List (Nat × Bool), (∀ p ∈ l, p.2 = b) →
      ∀ c : DCell, c.stable = b → (runDebounce c l).stable = b := by
  intro l
  induction l with
  | nil => intro _ c hc; exact hc
  | cons p l ih =>
    intro h c hc
    rw [runDebounce_cons]
    apply ih fun q hq => h q (List.mem_cons_of_mem _ hq)
    have hp : p.2 = b := h p (List.mem_cons_self p l)
    simp [debounceStep, hp, hc]

/-- A step that changes `stable` must have seen a sample equal to
`rawLast` (no raw transition at that step) with the window expired. -/
theorem step_stable_change (c : DCell) (now : Nat) (reading : Bool)
    (h : (debounceStep c now reading).stable ≠ c.stable) :
    reading = c.rawLast ∧ DEBOUNCE_DELAY ≤ elapsedMod now c.changedAt := by
  by_cases h1 : reading = c.rawLast
  · refine ⟨h1, ?_⟩
    by_cases h2 : elapsedMod now c.changedAt > DEBOUNCE_DELAY
    · exact Nat.le_of_lt h2
    · exact absurd (by simp [debounceStep, h1, h2]) h
  · exfalso
    apply h
    have h0 : elapsedMod now now = 0 := elapsedMod_self now
    simp [debounceStep, h1, h0, DEBOUNCE_DELAY]

/-- Two sticky-toggle presses from any state restore `modeEnabled` and
leave every latch false. -/
theorem stickyToggle_twice (s : Sticky) :
    stickyToggle (stickyToggle s) =
      ⟨s.modeEnabled, false, false, false, false, false⟩ := by
  revert s; decide

theorem stickyToggle_iter_even (k : Nat) :
    ∀ s : Sticky, stickyToggle^[2 * (k + 1)] s =
      ⟨s.modeEnabled, false, false, false, false, false⟩ := by
  induction k with
  | zero => decide
  | succ n ih =>
    intro s
    have h : 2 * (n + 1 + 1) = 2 + 2 * (n + 1) := by ring
    rw [h, Function.iterate_add_apply, ih s]
    cases hm : s.modeEnabled <;> decide

/- ### Claims -/

/-- C1: For every cell and scan tick, the action phase produces output
for a cell only when its stable state differs from its dispatched
state (`prevInputState`); the dispatched state is updated to the stable
state whenever the cell is processed; a cell whose stable state equals
its dispatched state is skipped with no action and no state change; and
immediately re-processing the cell with the same stable value (a held
key) produces no further events — hence exactly one dispatch per
stable transition. -/
theorem c1_dispatch_exactly_once_per_transition :
    ∀ (s : Sticky) (code : Nat) (stable dispatched : Bool),
      (cellDispatch s code stable dispatched).1 = stable ∧
      (stable = dispatched →
        cellDispatch s code stable dispatched = (dispatched, s, [])) ∧
      cellDispatch (cellDispatch s code stable dispatched).2.1 code stable
          (cellDispatch s code stable dispatched).1 =
        (stable, (cellDispatch s code stable dispatched).2.1, []) := by
  intro s code stable dispatched
  by_cases h : stable = dispatched <;> simp [cellDispatch, h]

/-- Witness for C1 at a held key: stable = dispatched = true is skipped. -/
theorem c1_witness : cellDispatch stickyInit 113 true true = (true, stickyInit, []) :=
  (c1_dispatch_exactly_once_per_transition stickyInit 113 true true).2.1 rfl

/-- C2 (failing-input evaluation): the layer-0 keymap places the layer
toggle at cell (2,5) and the shift modifier at cell (3,3), but with
exactly those two cells stable-pressed and no sticky latches the layer
calculation yields layer 1, not layer 3 — `activeShift` is read from
cell (3,2), which is blank on every layer, so the shift-modifier cell
never raises it. -/
theorem c2_shift_cell_layer_eval :
    keymapAt 0 2 5 = KC_L1 ∧ keymapAt 0 3 3 = KEY_LEFT_SHIFT ∧
    (layerPhase ksL1Shift stickyInit).1 = 1 ∧
    (layerPhase ksL1Shift stickyInit).1 ≠ 3 := by decide

/-- C3 (counterexample): with the raw timer at 0 and the current time
exactly `DEBOUNCE_DELAY`, a sample differing from `stable` does NOT
commit — the source tests `> DEBOUNCE_DELAY`, not `>=` as claimed. -/
theorem c3_counterexample :
    DEBOUNCE_DELAY ≤ elapsedMod 5 0 ∧ (true : Bool) ≠ false ∧
    (debounceStep ⟨false, true, 0⟩ 5 true).stable = false := by decide

/-- C3 (amended): one debounce step sets `changedAt := now` and
`rawLast := sample` exactly when the sample differs from `rawLast`, and
independently commits `stable := sample` exactly when the elapsed time
since the (updated) `changedAt` is STRICTLY greater than
`DEBOUNCE_DELAY` and the sample differs from `stable`. -/
theorem c3_debounce_step_characterization :
    ∀ (c : DCell) (now : Nat) (reading : Bool),
      (reading ≠ c.rawLast → (debounceStep c now reading).changedAt = now) ∧
      (reading = c.rawLast → (debounceStep c now reading).changedAt = c.changedAt) ∧
      (debounceStep c now reading).rawLast = reading ∧
      (elapsedMod now (debounceStep c now reading).changedAt > DEBOUNCE_DELAY →
        reading ≠ c.stable → (debounceStep c now reading).stable = reading) ∧
      (¬ elapsedMod now (debounceStep c now reading).changedAt > DEBOUNCE_DELAY →
        (debounceStep c now reading).stable = c.stable) ∧
      (reading = c.stable → (debounceStep c now reading).stable = c.stable) := by
  intro c now reading
  by_cases h1 : reading = c.rawLast
  · by_cases h2 : elapsedMod now c.changedAt > DEBOUNCE_DELAY
    · by_cases h3 : reading = c.stable <;> simp [debounceStep, h1, h2, h3] <;> tauto
    · simp [debounceStep, h1, h2]
  · by_cases h2 : elapsedMod now now > DEBOUNCE_DELAY
    · by_cases h3 : reading = c.stable <;> simp [debounceStep, h1, h2, h3]
      all_goals tauto
    · simp [debounceStep, h1, h2]

/-- Witness for C3: a fresh transition stamps `changedAt`, and an
expired window (elapsed 6 > 5) commits the differing sample. -/
theorem c3_witness :
    (debounceStep ⟨false, false, 0⟩ 7 true).changedAt = 7 ∧
    (debounceStep ⟨false, true, 0⟩ 6 true).stable = true :=
  ⟨(c3_debounce_step_characterization ⟨false, false, 0⟩ 7 true).1 (by decide),
   (c3_debounce_step_characterization ⟨false, true, 0⟩ 6 true).2.2.2.1
     (by decide) (by decide)⟩

/-- C4: a cell's stable value changes only on a step whose sample
agrees with `rawLast` and whose elapsed time since the last raw
transition is at least `DEBOUNCE_DELAY`; and a bounce — a raw value
held only within the debounce window before transitioning back — never
changes `stable` over the whole sample sequence. -/
theorem c4_debounce_window :
    (∀ (c : DCell) (now : Nat) (reading : Bool),
        (debounceStep c now reading).stable ≠ c.stable →
          reading = c.rawLast ∧ DEBOUNCE_DELAY ≤ elapsedMod now c.changedAt) ∧
    (∀ (b : Bool) (a t0 : Nat) (ts1 ts2 : List Nat),
        (∀ t ∈ ts1, t0 ≤ t ∧ t ≤ t0 + DEBOUNCE_DELAY) →
        (runDebounce ⟨b, b, a⟩
            (((t0, !b) :: ts1.map fun t => (t, !b)) ++
              ts2.map fun t => (t, b))).stable = b) := by
  constructor
  · exact step_stable_change
  · intro b a t0 ts1 ts2 h
    rw [List.cons_append, runDebounce_cons]
    simp only []
    rw [debounce_flip_start, runDebounce_append,
      runDebounce_bounce_phase b t0 ts1 h]
    exact runDebounce_stable_same b _ (by simp) _ rfl

/-- Witness for C4: a commit step satisfies the window condition, and a
concrete 5 ms bounce (raw high from t=10 only until t=15) never commits. -/
theorem c4_witness :
    ((true : Bool) = (⟨false, true, 0⟩ : DCell).rawLast ∧
      DEBOUNCE_DELAY ≤ elapsedMod 6 0) ∧
    (runDebounce ⟨false, false, 0⟩
        (((10, !false) :: [12, 15].map fun t => (t, !false)) ++
          [16, 400].map fun t => (t, false))).stable = false :=
  ⟨c4_debounce_window.1 ⟨false, true, 0⟩ 6 true (by decide),
   c4_debounce_window.2 false 0 10 [12, 15] [16, 400] (by decide)⟩

/-- C5: from any state with sticky mode enabled, a press edge on the
sticky-toggle key disables the mode, clears all five latch flags, and
issues exactly one `releaseAll` to the output sink. -/
theorem c5_sticky_disable_clears_and_releases :
    ∀ s : Sticky, s.modeEnabled = true →
      handleKey STICKY true s = (stickyInit, [Event.releaseAll]) := by decide

/-- Witness for C5: scenario E, mode on with shift and ctrl latched. -/
theorem c5_witness :
    handleKey STICKY true ⟨true, false, false, true, true, false⟩ =
      (stickyInit, [Event.releaseAll]) :=
  c5_sticky_disable_clears_and_releases ⟨true, false, false, true, true, false⟩ rfl

/-- C6: a press edge on a standard (character) key emits one press for
each set latch in source order shift, ctrl, alt, immediately followed
by the press of the key's code, and its release edge emits only the
release of the key's code; with only the shift latch set the press edge
yields exactly `press(shift)` then `press(code)`. -/
theorem c6_standard_key_sticky_injection :
    ∀ (s : Sticky) (code : Nat),
      code ≠ STICKY → code ≠ KC_L1 → code ≠ KEY_FUNC →
      code ≠ KEY_LEFT_SHIFT → code ≠ KEY_LEFT_CTRL → code ≠ KEY_LEFT_ALT →
      code ≠ BLANK →
      handleKey code true s = (s, stickyInjects s ++ [Event.press code]) ∧
      handleKey code false s = (s, [Event.release code]) ∧
      (s.shift = true → s.ctrl = false → s.alt = false →
        handleKey code true s =
          (s, [Event.press KEY_LEFT_SHIFT, Event.press code])) := by
  intro s code h1 h2 h3 h4 h5 h6 h7
  refine ⟨?_, ?_, ?_⟩
  · simp [handleKey, stickyInjects, h1, h2, h3, h4, h5, h6, h7]
  · simp [handleKey, h1, h2, h3, h4, h5, h6, h7]
  · intro hs hc ha
    simp [handleKey, h1, h2, h3, h4, h5, h6, h7, hs, hc, ha]

/-- Witness for C6: scenario D with the character `q` (code 113) and
only the shift latch set. -/
theorem c6_witness :
    handleKey 113 true ⟨true, false, false, true, false, false⟩ =
      (⟨true, false, false, true, false, false⟩,
        [Event.press KEY_LEFT_SHIFT, Event.press 113]) :=
  ((c6_standard_key_sticky_injection ⟨true, false, false, true, false, false⟩ 113
      (by decide) (by decide) (by decide) (by decide) (by decide) (by decide)
      (by decide)).2.2) rfl rfl rfl

/-- C7: a cell resolving to `KC_L1` or `KEY_FUNC` never emits any
output-sink call, in either mode; in sticky mode a press edge flips the
corresponding latch; and in the concrete scenario — sticky mode toggled
on, then the layer-toggle key pressed, released, and pressed again —
the `l1` latch goes true then false with the event list empty at every
step. -/
theorem c7_layer_keys_never_forwarded :
    ∀ (s : Sticky) (pressed : Bool),
      ((handleKey KC_L1 pressed s).2 = [] ∧ (handleKey KEY_FUNC pressed s).2 = []) ∧
      (s.modeEnabled = true →
        (handleKey KC_L1 true s).1 = { s with l1 := !s.l1 } ∧
        (handleKey KEY_FUNC true s).1 = { s with func := !s.func }) ∧
      (handleKey STICKY true stickyInit =
          (⟨true, false, false, false, false, false⟩, []) ∧
        handleKey KC_L1 true ⟨true, false, false, false, false, false⟩ =
          (⟨true, true, false, false, false, false⟩, []) ∧
        handleKey KC_L1 false ⟨true, true, false, false, false, false⟩ =
          (⟨true, true, false, false, false, false⟩, []) ∧
        handleKey KC_L1 true ⟨true, true, false, false, false, false⟩ =
          (⟨true, false, false, false, false, false⟩, [])) := by decide

/-- Witness for C7: in sticky mode, a layer-toggle press flips `l1`. -/
theorem c7_witness :
    (handleKey KC_L1 true ⟨true, false, false, false, false, false⟩).1 =
      ⟨true, true, false, false, false, false⟩ :=
  ((c7_layer_keys_never_forwarded ⟨true, false, false, false, false, false⟩
      true).2.1 rfl).1

/-- C8 (counterexample): zero is an even number of applications, yet
from a starting state with the shift latch set the latch is still set —
the claim fails for zero applications over an arbitrary start state. -/
theorem c8_counterexample :
    Even 0 ∧
      (stickyToggle^[0] ⟨false, false, false, true, false, false⟩).shift = true :=
  ⟨⟨0, rfl⟩, rfl⟩

/-- C8 (amended): applying the sticky-toggle press-edge transition a
POSITIVE even number of times restores `modeEnabled` to its original
value and leaves all five latch flags false. -/
theorem c8_even_toggles_restore_mode :
    ∀ (s : Sticky) (k : Nat), 0 < k →
      stickyToggle^[2 * k] s =
        ⟨s.modeEnabled, false, false, false, false, false⟩ := by
  intro s k hk
  obtain ⟨n, rfl⟩ : ∃ n, k = n + 1 := ⟨k - 1, by omega⟩
  exact stickyToggle_iter_even n s

/-- Witness for C8: two toggles from mode-on with latches set. -/
theorem c8_witness :
    stickyToggle^[2 * 1] ⟨true, true, false, true, false, false⟩ =
      ⟨true, false, false, false, false, false⟩ :=
  c8_even_toggles_restore_mode ⟨true, true, false, true, false, false⟩ 1 Nat.one_pos

/-- C9: from any state with sticky mode disabled, a press edge on the
sticky-toggle key enables the mode and does nothing else: every latch
is unchanged and no output-sink call is emitted. -/
theorem c9_sticky_enable_no_side_effect :
    ∀ s : Sticky, s.modeEnabled = false →
      handleKey STICKY true s = ({ s with modeEnabled := true }, []) := by decide

/-- Witness for C9: enabling from mode-off with stray latches set. -/
theorem c9_witness :
    handleKey STICKY true ⟨false, true, false, true, false, false⟩ =
      (⟨true, true, false, true, false, false⟩, []) :=
  c9_sticky_enable_no_side_effect ⟨false, true, false, true, false, false⟩ rfl

/-- C10: on every tick the layer-calculation phase sets the ctrl latch
level-triggered: the new `stickyCtrl` is the old value OR
(`keyState[3][3] AND stickyModeEnabled`), where (3,3) is the
shift-modifier cell of the layer-0 keymap; no other latch nor the mode
flag is written by this phase, and with the latch just toggled off but
the cell still held in sticky mode it is re-set on the next tick. -/
theorem c10_ctrl_latch_level_triggered :
    ∀ (ks : Nat → Nat → Bool) (s : Sticky),
      (layerPhase ks s).2.ctrl = (s.ctrl || (ks 3 3 && s.modeEnabled)) ∧
      (layerPhase ks s).2.modeEnabled = s.modeEnabled ∧
      (layerPhase ks s).2.l1 = s.l1 ∧
      (layerPhase ks s).2.func = s.func ∧
      (layerPhase ks s).2.shift = s.shift ∧
      (layerPhase ks s).2.alt = s.alt ∧
      keymapAt 0 3 3 = KEY_LEFT_SHIFT ∧
      (layerPhase (fun r c => r == 3 && c == 3)
          ⟨true, false, false, false, false, false⟩).2.ctrl = true := by
  intro ks s
  cases h : ks 3 3 && s.modeEnabled <;> simp [layerPhase, h] <;> decide

end PicoKbd
